import Mathlib

/-
Shallow embedding of the dragonfly-p2p-webhook mutation engine
(internal/webhook/v1/pod_webhook.go and internal/webhook/v1/injector/).

Go slices become Lean lists, Go maps become association lists (lookup by
first matching key), nil-able maps become Option, and the in-place
mutation of the Pod object becomes a pure function Pod -> Pod.
-/

namespace DragonflyWebhook

/- k8s core/v1 data model (the fields the webhook touches) -/

structure ObjectFieldSelector where
  fieldPath : String
deriving Repr, DecidableEq

structure EnvVarSource where
  fieldRef : Option ObjectFieldSelector := none
deriving Repr, DecidableEq

structure EnvVar where
  name : String
  value : String := ""
  valueFrom : Option EnvVarSource := none
deriving Repr, DecidableEq

structure VolumeMount where
  name : String
  mountPath : String
deriving Repr, DecidableEq

inductive HostPathType where
  | socket
deriving Repr, DecidableEq

structure HostPathVolumeSource where
  path : String
  typ : Option HostPathType := none
deriving Repr, DecidableEq

inductive VolumeSource where
  | hostPath (src : HostPathVolumeSource)
  | emptyDir
deriving Repr, DecidableEq

structure Volume where
  name : String
  volumeSource : VolumeSource
deriving Repr, DecidableEq

structure Container where
  name : String
  image : String := ""
  imagePullPolicy : String := ""
  command : List String := []
  env : List EnvVar := []
  volumeMounts : List VolumeMount := []
deriving Repr, DecidableEq

structure PodSpec where
  initContainers : List Container := []
  containers : List Container := []
  volumes : List Volume := []
deriving Repr, DecidableEq

/- Pod metadata: annots models ObjectMeta.Annotations (a nil-able Go map). -/
structure Pod where
  name : String := ""
  namespaceName : String := ""
  annots : Option (List (String × String)) := none
  spec : PodSpec := {}
deriving Repr, DecidableEq

structure K8sNamespace where
  labels : List (String × String)
deriving Repr, DecidableEq

/- Go map lookup on an association list: first matching key. -/
def lookupStr (m : List (String × String)) (k : String) : Option String :=
  (m.find? (fun kv => kv.fst == k)).map (fun kv => kv.snd)

/- Constants from internal/webhook/v1/injector/config.go -/

def NamespaceInjectLabelName : String := "dragonflyoss-injection"
def NamespaceInjectLabelValue : String := "enabled"
def PodInjectAnnotKey : String := "dragonfly.io/inject"
def PodInjectAnnotValue : String := "true"
def NodeNameEnvName : String := "NODE_NAME"
def ProxyPortEnvName : String := "DRAGONFLY_PROXY_PORT"
def ProxyPortEnvValue : Int := 4001
def ProxyEnvName : String := "DRAGONFLY_INJECT_PROXY"
def DfdaemonUnixSockVolumeName : String := "dfdaemon-unix-sock"
def DfdaemonUnixSockPath : String := "/var/run/dragonfly/dfdaemon.sock"
def CliToolsImageAnnotKey : String := "dragonfly.io/cli-tools-image"
def CliToolsImage : String := "dragonflyoss/cli-tools:latest"
def CliToolsInitContainerName : String := "d7y-cli-tools"
def CliToolsVolumeName : String := CliToolsInitContainerName ++ "-volume"
def CliToolsDirPath : String := "/dragonfly-tools"
def CliToolsPathEnvName : String := "DRAGONFLY_TOOLS_PATH"

/- InjectConf (config.go) -/

structure InjectConf where
  enable : Bool
  proxyPort : Int
  cliToolsImage : String
  cliToolsDirPath : String
deriving Repr, DecidableEq

def NewDefaultInjectConf : InjectConf :=
  { enable := true
    proxyPort := ProxyPortEnvValue
    cliToolsImage := CliToolsImage
    cliToolsDirPath := CliToolsDirPath }

/- ProxyEnvInjector (proxy_env.go) -/

def envsFromConfig (config : InjectConf) : List EnvVar :=
  [ { name := NodeNameEnvName
      valueFrom := some { fieldRef := some { fieldPath := "spec.nodeName" } } },
    { name := ProxyPortEnvName, value := toString config.proxyPort },
    { name := ProxyEnvName
      value := "http://$(" ++ NodeNameEnvName ++ "):$(" ++ ProxyPortEnvName ++ ")" } ]

def envNameExists (env : List EnvVar) (n : String) : Bool :=
  env.any (fun ce => ce.name == n)

def injectEnvStep (c : Container) (e : EnvVar) : Container :=
  if envNameExists c.env e.name then c else { c with env := c.env ++ [e] }

def injectContainer (c : Container) (envs : List EnvVar) : Container :=
  envs.foldl injectEnvStep c

def mapContainers (f : Container → Container) (pod : Pod) : Pod :=
  { pod with spec := { pod.spec with containers := pod.spec.containers.map f } }

def proxyEnvInject (pod : Pod) (config : InjectConf) : Pod :=
  mapContainers (fun c => injectContainer c (envsFromConfig config)) pod

/- UnixSocketInjector (unix_socket.go) -/

def unixSocketVolume : Volume :=
  { name := DfdaemonUnixSockVolumeName
    volumeSource := .hostPath { path := DfdaemonUnixSockPath, typ := some .socket } }

def unixSocketInjectContainer (c : Container) : Container :=
  if c.volumeMounts.any (fun v => v.name == DfdaemonUnixSockVolumeName) then c
  else { c with volumeMounts := c.volumeMounts ++
          [{ name := DfdaemonUnixSockVolumeName, mountPath := DfdaemonUnixSockPath }] }

def unixSocketEnsureVolume (vs : List Volume) : List Volume :=
  if vs.any (fun v => v.name == DfdaemonUnixSockVolumeName) then vs
  else vs ++ [unixSocketVolume]

def unixSocketInject (pod : Pod) (_config : InjectConf) : Pod :=
  { pod with spec := { pod.spec with
      volumes := unixSocketEnsureVolume pod.spec.volumes
      containers := pod.spec.containers.map unixSocketInjectContainer } }

/-
Go path/filepath.Clean for unix separators, transcribed from the stdlib
algorithm (lazybuf out, read index r, dotdot marker).  The recursion is
fueled: the fuel starts at the length of the remaining input and every
iteration of the Go loop consumes at least one input byte, so the fuel
never runs out before the input does.
-/

def btStepAux (out : List Char) (dotdot : Nat) : Nat → Nat → Nat
  | 0, w => w
  | fuel + 1, w =>
    if dotdot < w && !(out.getD w ' ' == '/') then btStepAux out dotdot fuel (w - 1)
    else w

def cleanLoop (rooted : Bool) : Nat → List Char → List Char → Nat → List Char
  | 0, _, out, _ => out
  | _fuel + 1, [], out, _ => out
  | fuel + 1, c :: rest, out, dotdot =>
    if c == '/' then
      -- empty path element
      cleanLoop rooted fuel rest out dotdot
    else if c == '.' && (rest.isEmpty || rest.headD ' ' == '/') then
      -- . element
      cleanLoop rooted fuel rest out dotdot
    else if c == '.' && rest.headD ' ' == '.' &&
            (rest.tail.isEmpty || rest.tail.headD ' ' == '/') then
      -- .. element: remove to last separator
      if dotdot < out.length then
        cleanLoop rooted fuel rest.tail
          (out.take (btStepAux out dotdot (out.length - 1) (out.length - 1))) dotdot
      else if !rooted then
        let out2 := (if out.length > 0 then out ++ ['/'] else out) ++ ['.', '.']
        cleanLoop rooted fuel rest.tail out2 out2.length
      else
        cleanLoop rooted fuel rest.tail out dotdot
    else
      -- real path element: add slash if needed, then copy the element
      let out2 :=
        if (rooted && out.length != 1) || (!rooted && out.length != 0) then out ++ ['/']
        else out
      cleanLoop rooted fuel (rest.dropWhile (fun ch => !(ch == '/')))
        (out2 ++ (c :: rest.takeWhile (fun ch => !(ch == '/')))) dotdot

def filepathClean (path : String) : String :=
  match path.toList with
  | [] => "."
  | c :: rest =>
    let rooted := c == '/'
    let out :=
      if rooted then cleanLoop true rest.length rest ['/'] 1
      else cleanLoop false (c :: rest).length (c :: rest) [] 0
    if out.isEmpty then "." else String.mk out

/- ToolsInitcontainerInjector (tools_initcontainer.go) -/

def CheckInitContainerIsExist (pod : Pod) : Bool :=
  pod.spec.initContainers.any (fun ic => ic.name == CliToolsInitContainerName)

def CheckVolumeIsExist (pod : Pod) : Bool :=
  pod.spec.volumes.any (fun v => v.name == CliToolsVolumeName)

def CheckVolumeMountIsExist (c : Container) : Bool :=
  c.volumeMounts.any (fun vm => vm.name == CliToolsVolumeName)

def CheckEnvIsExist (c : Container) : Bool :=
  c.env.any (fun e => e.name == CliToolsPathEnvName)

def toolsAddVolumeMount (mountPath : String) (c : Container) : Container :=
  if CheckVolumeMountIsExist c then c
  else { c with volumeMounts := c.volumeMounts ++
          [{ name := CliToolsVolumeName, mountPath := mountPath }] }

def toolsAddEnv (mountPath : String) (c : Container) : Container :=
  if CheckEnvIsExist c then c
  else { c with env := c.env ++ [{ name := CliToolsPathEnvName, value := mountPath }] }

def toolsInjectContainer (mountPath : String) (c : Container) : Container :=
  toolsAddEnv mountPath (toolsAddVolumeMount mountPath c)

def toolsResolveImage (pod : Pod) (config : InjectConf) : String :=
  match pod.annots with
  | none => config.cliToolsImage
  | some m =>
    match lookupStr m CliToolsImageAnnotKey with
    | some image => image
    | none => config.cliToolsImage

def toolsMountPath (config : InjectConf) : String :=
  filepathClean config.cliToolsDirPath ++ "-mount"

def toolsInitContainer (pod : Pod) (config : InjectConf) : Container :=
  { name := CliToolsInitContainerName
    image := toolsResolveImage pod config
    imagePullPolicy := "IfNotPresent"
    command := ["cp", "-rf", config.cliToolsDirPath ++ "/.", toolsMountPath config ++ "/"]
    volumeMounts := [{ name := CliToolsVolumeName, mountPath := toolsMountPath config }] }

def toolsVolume : Volume :=
  { name := CliToolsVolumeName, volumeSource := .emptyDir }

def toolsInject (pod : Pod) (config : InjectConf) : Pod :=
  { pod with spec := { pod.spec with
      initContainers :=
        if CheckInitContainerIsExist pod then pod.spec.initContainers
        else pod.spec.initContainers ++ [toolsInitContainer pod config]
      volumes :=
        if CheckVolumeIsExist pod then pod.spec.volumes
        else pod.spec.volumes ++ [toolsVolume]
      containers := pod.spec.containers.map (toolsInjectContainer (toolsMountPath config)) } }

/-
Eligibility policy and orchestrator (pod_webhook.go).  The namespace
fetch d.kubeClient.Get is the only external call: it is embedded as an
explicit Except-valued fetch result passed to the predicate.
-/

def isNamespaceInjectionEnabled (nsResult : Except String K8sNamespace) : Bool :=
  match nsResult with
  | .error _ => false
  | .ok ns =>
    if ns.labels.length == 0 then false
    else
      match lookupStr ns.labels NamespaceInjectLabelName with
      | none => false
      | some v => v == NamespaceInjectLabelValue

def isPodInjectionEnabled (pod : Pod) : Bool :=
  if (pod.annots.getD []).length == 0 then false
  else
    match lookupStr (pod.annots.getD []) PodInjectAnnotKey with
    | none => false
    | some v => v == PodInjectAnnotValue

def injectRequired (nsResult : Except String K8sNamespace) (pod : Pod) : Bool :=
  isNamespaceInjectionEnabled nsResult || isPodInjectionEnabled pod

/-
applyDefaults: config is the snapshot obtained from
configManager.GetConfig() at the start of the call; the three injectors
run in registration order (proxy env, unix socket, tools initcontainer).
-/
def applyDefaults (nsResult : Except String K8sNamespace) (config : InjectConf)
    (pod : Pod) : Pod :=
  if injectRequired nsResult pod then
    toolsInject (unixSocketInject (proxyEnvInject pod config) config) config
  else pod

/- runtime.Object: either a Pod or some other object (its Go type name). -/
inductive RuntimeObject where
  | pod (p : Pod)
  | other (typeName : String)
deriving Repr, DecidableEq

/- Default: the admission entry point; an error is returned only for the
type-mismatch case, otherwise the (possibly mutated) pod with nil error. -/
def Default (nsResult : Except String K8sNamespace) (config : InjectConf)
    (obj : RuntimeObject) : Except String RuntimeObject :=
  match obj with
  | .other t => .error ("expected an Pod object but got " ++ t)
  | .pod p => .ok (.pod (applyDefaults nsResult config p))

/-
Config loading (config.go).  os.ReadFile and yaml.Unmarshal are external:
reading is an explicit filesystem function String -> Except String String,
and the yaml layer is a parser String -> Except String InjectConfDoc where
InjectConfDoc records which of the four recognized keys the document sets.
Unmarshalling into the zero-valued struct sets exactly the present keys.
-/

structure InjectConfDoc where
  enable : Option Bool := none
  proxy_port : Option Int := none
  cli_tools_image : Option String := none
  cli_tools_dir_path : Option String := none
deriving Repr, DecidableEq

def unmarshalInto (doc : InjectConfDoc) (init : InjectConf) : InjectConf :=
  { enable := doc.enable.getD init.enable
    proxyPort := doc.proxy_port.getD init.proxyPort
    cliToolsImage := doc.cli_tools_image.getD init.cliToolsImage
    cliToolsDirPath := doc.cli_tools_dir_path.getD init.cliToolsDirPath }

def LoadInjectConfFromFile (readFile : String → Except String String)
    (parse : String → Except String InjectConfDoc)
    (injectConfigMapPath : String) : Except String InjectConf :=
  match readFile injectConfigMapPath with
  | .error e => .error e
  | .ok cf =>
    match parse cf with
    | .error e => .error e
    | .ok doc =>
      .ok (unmarshalInto doc
        { enable := false, proxyPort := 0, cliToolsImage := "", cliToolsDirPath := "" })

def LoadInjectConf (readFile : String → Except String String)
    (parse : String → Except String InjectConfDoc)
    (injectConfigMapPath : String) : InjectConf :=
  match LoadInjectConfFromFile readFile parse injectConfigMapPath with
  | .error _ => NewDefaultInjectConf
  | .ok ic => ic

/- Go path/filepath.Join for two elements: join non-empty elements with a
separator, then Clean; all-empty yields the empty string. -/
def filepathJoin2 (a b : String) : String :=
  if a == "" && b == "" then ""
  else if a == "" then filepathClean b
  else if b == "" then filepathClean a
  else filepathClean (a ++ "/" ++ b)

/- ConfigManager (config.go): the mutex-guarded pointer becomes the config
field; reload is one tick of the Start loop, parameterized by the
filesystem state at that tick. -/
structure ConfigManager where
  config : InjectConf
  configPath : String
deriving Repr, DecidableEq

def NewConfigManager (readFile : String → Except String String)
    (parse : String → Except String InjectConfDoc)
    (injectConfigMapPath : String) : ConfigManager :=
  let configPath := filepathJoin2 injectConfigMapPath "config.yaml"
  { config := LoadInjectConf readFile parse configPath
    configPath := configPath }

def ConfigManager.GetConfig (cm : ConfigManager) : InjectConf :=
  cm.config

def ConfigManager.reload (readFile : String → Except String String)
    (parse : String → Except String InjectConfDoc)
    (cm : ConfigManager) : ConfigManager :=
  { cm with config := LoadInjectConf readFile parse cm.configPath }

/- Helper lemmas: the env-merge of ProxyEnvInjector -/

theorem envNameExists_append_left (env l : List EnvVar) (n : String)
    (h : envNameExists env n = true) : envNameExists (env ++ l) n = true := by
  simp [envNameExists, List.any_append] at h ⊢
  exact Or.inl h

theorem injectEnvStep_env_mono (c : Container) (e : EnvVar) (n : String)
    (h : envNameExists c.env n = true) :
    envNameExists (injectEnvStep c e).env n = true := by
  unfold injectEnvStep
  split
  · exact h
  · exact envNameExists_append_left _ _ _ h

theorem injectContainer_env_mono (envs : List EnvVar) (c : Container) (n : String)
    (h : envNameExists c.env n = true) :
    envNameExists (injectContainer c envs).env n = true := by
  induction envs generalizing c with
  | nil => exact h
  | cons e rest ih => exact ih _ (injectEnvStep_env_mono c e n h)

theorem injectEnvStep_present (c : Container) (e : EnvVar) :
    envNameExists (injectEnvStep c e).env e.name = true := by
  unfold injectEnvStep
  split
  · assumption
  · simp [envNameExists, List.any_append]

theorem injectContainer_all_present (envs : List EnvVar) (c : Container) :
    ∀ e ∈ envs, envNameExists (injectContainer c envs).env e.name = true := by
  induction envs generalizing c with
  | nil => intro e he; cases he
  | cons e0 rest ih =>
    intro e he
    cases he with
    | head => exact injectContainer_env_mono rest _ _ (injectEnvStep_present c e0)
    | tail _ hmem => exact ih (injectEnvStep c e0) e hmem

theorem injectContainer_no_op (envs : List EnvVar) (c : Container)
    (h : ∀ e ∈ envs, envNameExists c.env e.name = true) :
    injectContainer c envs = c := by
  induction envs generalizing c with
  | nil => rfl
  | cons e0 rest ih =>
    have hstep : injectEnvStep c e0 = c := by
      unfold injectEnvStep
      rw [if_pos (h e0 (List.mem_cons_self _ _))]
    show injectContainer (injectEnvStep c e0) rest = c
    rw [hstep]
    exact ih c (fun e he => h e (List.mem_cons_of_mem _ he))

theorem injectContainer_idem (c : Container) (envs : List EnvVar) :
    injectContainer (injectContainer c envs) envs = injectContainer c envs :=
  injectContainer_no_op envs _ (injectContainer_all_present envs c)

theorem mapContainers_comp (f g : Container → Container) (pod : Pod) :
    mapContainers f (mapContainers g pod) = mapContainers (fun c => f (g c)) pod := by
  unfold mapContainers
  simp [List.map_map, Function.comp]

theorem proxyEnvInject_idem (pod : Pod) (config : InjectConf) :
    proxyEnvInject (proxyEnvInject pod config) config = proxyEnvInject pod config := by
  unfold proxyEnvInject
  rw [mapContainers_comp]
  unfold mapContainers
  rw [List.map_congr_left (fun c _ => injectContainer_idem c (envsFromConfig config))]

/- Helper lemmas: UnixSocketInjector -/

theorem unixSocketEnsureVolume_present (vs : List Volume) :
    (unixSocketEnsureVolume vs).any (fun v => v.name == DfdaemonUnixSockVolumeName) = true := by
  unfold unixSocketEnsureVolume
  split
  · assumption
  · simp [List.any_append, unixSocketVolume]

theorem unixSocketEnsureVolume_no_op (vs : List Volume)
    (h : vs.any (fun v => v.name == DfdaemonUnixSockVolumeName) = true) :
    unixSocketEnsureVolume vs = vs := by
  unfold unixSocketEnsureVolume
  rw [if_pos h]

theorem unixSocketInjectContainer_mount_present (c : Container) :
    (unixSocketInjectContainer c).volumeMounts.any
      (fun v => v.name == DfdaemonUnixSockVolumeName) = true := by
  unfold unixSocketInjectContainer
  split
  · assumption
  · simp [List.any_append]

theorem unixSocketInjectContainer_no_op (c : Container)
    (h : c.volumeMounts.any (fun v => v.name == DfdaemonUnixSockVolumeName) = true) :
    unixSocketInjectContainer c = c := by
  unfold unixSocketInjectContainer
  rw [if_pos h]

theorem map_self_of_mem_eq {α : Type} (f : α → α) :
    ∀ (l : List α), (∀ a ∈ l, f a = a) → l.map f = l
  | [], _ => rfl
  | a :: l, h => by
    simp only [List.map_cons, h a (List.mem_cons_self a l)]
    rw [map_self_of_mem_eq f l (fun b hb => h b (List.mem_cons_of_mem a hb))]

theorem unixSocketInject_no_op (pod : Pod) (config : InjectConf)
    (hv : pod.spec.volumes.any (fun v => v.name == DfdaemonUnixSockVolumeName) = true)
    (hc : ∀ c ∈ pod.spec.containers, unixSocketInjectContainer c = c) :
    unixSocketInject pod config = pod := by
  unfold unixSocketInject
  rw [unixSocketEnsureVolume_no_op _ hv, map_self_of_mem_eq _ _ hc]

theorem unixSocketInject_volume_present (pod : Pod) (config : InjectConf) :
    (unixSocketInject pod config).spec.volumes.any
      (fun v => v.name == DfdaemonUnixSockVolumeName) = true :=
  unixSocketEnsureVolume_present pod.spec.volumes

theorem unixSocketInject_idem (pod : Pod) (config : InjectConf) :
    unixSocketInject (unixSocketInject pod config) config = unixSocketInject pod config := by
  apply unixSocketInject_no_op
  · exact unixSocketInject_volume_present pod config
  · intro c hc
    have hc' : c ∈ pod.spec.containers.map unixSocketInjectContainer := hc
    obtain ⟨a, -, rfl⟩ := List.mem_map.mp hc'
    exact unixSocketInjectContainer_no_op _ (unixSocketInjectContainer_mount_present a)

/- Helper lemmas: ToolsInitcontainerInjector -/

theorem toolsAddVolumeMount_vm_present (mountPath : String) (c : Container) :
    CheckVolumeMountIsExist (toolsAddVolumeMount mountPath c) = true := by
  unfold toolsAddVolumeMount
  split
  · assumption
  · simp [CheckVolumeMountIsExist, List.any_append]

theorem toolsAddEnv_env_present (mountPath : String) (c : Container) :
    CheckEnvIsExist (toolsAddEnv mountPath c) = true := by
  unfold toolsAddEnv
  split
  · assumption
  · simp [CheckEnvIsExist, List.any_append]

theorem toolsAddEnv_vm_eq (mountPath : String) (c : Container) :
    (toolsAddEnv mountPath c).volumeMounts = c.volumeMounts := by
  unfold toolsAddEnv
  split <;> rfl

theorem toolsAddVolumeMount_env_eq (mountPath : String) (c : Container) :
    (toolsAddVolumeMount mountPath c).env = c.env := by
  unfold toolsAddVolumeMount
  split <;> rfl

theorem toolsInjectContainer_vm_present (mountPath : String) (c : Container) :
    CheckVolumeMountIsExist (toolsInjectContainer mountPath c) = true := by
  unfold toolsInjectContainer CheckVolumeMountIsExist
  rw [toolsAddEnv_vm_eq]
  exact toolsAddVolumeMount_vm_present mountPath c

theorem toolsInjectContainer_env_present (mountPath : String) (c : Container) :
    CheckEnvIsExist (toolsInjectContainer mountPath c) = true :=
  toolsAddEnv_env_present mountPath (toolsAddVolumeMount mountPath c)

theorem toolsInjectContainer_no_op (mountPath : String) (c : Container)
    (hvm : CheckVolumeMountIsExist c = true) (henv : CheckEnvIsExist c = true) :
    toolsInjectContainer mountPath c = c := by
  unfold toolsInjectContainer toolsAddVolumeMount toolsAddEnv
  rw [if_pos hvm, if_pos henv]

theorem toolsInjectContainer_idem (mountPath : String) (c : Container) :
    toolsInjectContainer mountPath (toolsInjectContainer mountPath c) =
      toolsInjectContainer mountPath c :=
  toolsInjectContainer_no_op _ _ (toolsInjectContainer_vm_present mountPath c)
    (toolsInjectContainer_env_present mountPath c)

theorem toolsInject_initContainer_present (pod : Pod) (config : InjectConf) :
    CheckInitContainerIsExist (toolsInject pod config) = true := by
  unfold toolsInject CheckInitContainerIsExist
  dsimp only
  split
  · assumption
  · simp [List.any_append, toolsInitContainer]

theorem toolsInject_volume_present (pod : Pod) (config : InjectConf) :
    CheckVolumeIsExist (toolsInject pod config) = true := by
  unfold toolsInject CheckVolumeIsExist
  dsimp only
  split
  · assumption
  · simp [List.any_append, toolsVolume]

theorem toolsInject_annots_eq (pod : Pod) (config : InjectConf) :
    (toolsInject pod config).annots = pod.annots := rfl

theorem toolsInject_no_op (pod : Pod) (config : InjectConf)
    (h1 : CheckInitContainerIsExist pod = true)
    (h2 : CheckVolumeIsExist pod = true)
    (hc : ∀ c ∈ pod.spec.containers, toolsInjectContainer (toolsMountPath config) c = c) :
    toolsInject pod config = pod := by
  unfold toolsInject
  rw [if_pos h1, if_pos h2, map_self_of_mem_eq _ _ hc]

theorem toolsInject_idem (pod : Pod) (config : InjectConf) :
    toolsInject (toolsInject pod config) config = toolsInject pod config := by
  apply toolsInject_no_op
  · exact toolsInject_initContainer_present pod config
  · exact toolsInject_volume_present pod config
  · intro c hc
    have hc' : c ∈ pod.spec.containers.map (toolsInjectContainer (toolsMountPath config)) := hc
    obtain ⟨a, -, rfl⟩ := List.mem_map.mp hc'
    exact toolsInjectContainer_idem (toolsMountPath config) a

/-- C1: each of the three injectors (ProxyEnvInjector.Inject,
UnixSocketInjector.Inject, ToolsInitcontainerInjector.Inject) is idempotent:
for every pod P and config C, applying the injector twice with the same
config yields exactly the same pod as applying it once. -/
theorem injectors_idempotent (pod : Pod) (config : InjectConf) :
    proxyEnvInject (proxyEnvInject pod config) config = proxyEnvInject pod config ∧
    unixSocketInject (unixSocketInject pod config) config = unixSocketInject pod config ∧
    toolsInject (toolsInject pod config) config = toolsInject pod config :=
  ⟨proxyEnvInject_idem pod config, unixSocketInject_idem pod config,
    toolsInject_idem pod config⟩

/- Helper lemmas: eligibility policy -/

theorem isNamespaceInjectionEnabled_ok (ns : K8sNamespace) :
    isNamespaceInjectionEnabled (.ok ns) = true ↔
      lookupStr ns.labels NamespaceInjectLabelName = some NamespaceInjectLabelValue := by
  unfold isNamespaceInjectionEnabled
  dsimp only
  split
  · next hlen =>
    have hnil : ns.labels = [] := List.length_eq_zero.mp (by simpa using hlen)
    simp [hnil, lookupStr]
  · next hlen =>
    split
    · next heq => simp [heq]
    · next v heq => simp [heq, beq_iff_eq]

theorem isNamespaceInjectionEnabled_iff (nsResult : Except String K8sNamespace) :
    isNamespaceInjectionEnabled nsResult = true ↔
      ∃ ns, nsResult = Except.ok ns ∧
        lookupStr ns.labels NamespaceInjectLabelName = some NamespaceInjectLabelValue := by
  cases nsResult with
  | error e => simp [isNamespaceInjectionEnabled]
  | ok ns =>
    rw [isNamespaceInjectionEnabled_ok]
    constructor
    · intro h; exact ⟨ns, rfl, h⟩
    · rintro ⟨ns', heq, h⟩
      cases heq
      exact h

theorem isPodInjectionEnabled_iff (pod : Pod) :
    isPodInjectionEnabled pod = true ↔
      lookupStr (pod.annots.getD []) PodInjectAnnotKey = some PodInjectAnnotValue := by
  unfold isPodInjectionEnabled
  split
  · next hlen =>
    have hnil : pod.annots.getD [] = [] := List.length_eq_zero.mp (by simpa using hlen)
    simp [hnil, lookupStr]
  · next hlen =>
    split
    · next heq => simp [heq]
    · next v heq => simp [heq, beq_iff_eq]

/-- C2: injectRequired(ctx, P) is true iff the namespace fetch succeeded and
the namespace carries the label dragonflyoss-injection=enabled, OR the pod
annotation map carries dragonfly.io/inject=true; and when the namespace
fetch fails the namespace signal is false and the decision falls through to
the pod-annotation signal (the call never aborts: it still returns a
boolean, equal to the pod signal alone). -/
theorem injectRequired_spec (nsResult : Except String K8sNamespace) (pod : Pod) :
    (injectRequired nsResult pod = true ↔
      (∃ ns, nsResult = Except.ok ns ∧
        lookupStr ns.labels NamespaceInjectLabelName = some NamespaceInjectLabelValue) ∨
      lookupStr (pod.annots.getD []) PodInjectAnnotKey = some PodInjectAnnotValue) ∧
    (∀ e, injectRequired (Except.error e) pod = isPodInjectionEnabled pod) := by
  constructor
  · unfold injectRequired
    rw [Bool.or_eq_true]
    exact or_congr (isNamespaceInjectionEnabled_iff nsResult) (isPodInjectionEnabled_iff pod)
  · intro e
    unfold injectRequired
    simp [isNamespaceInjectionEnabled]

def emptyContainer : Container := { name := "" }

/-- C3: for a pod with at least two containers where container 0 already has
the tools volume-mount (name d7y-cli-tools-volume) and the
DRAGONFLY_TOOLS_PATH env var but container 1 does not, after
ToolsInitcontainerInjector.Inject container 1 also has both: the
check-and-append is evaluated per container, on that container's own state. -/
theorem tools_per_container_independence (pod : Pod) (config : InjectConf)
    (h2 : 2 ≤ pod.spec.containers.length)
    (h0vm : CheckVolumeMountIsExist (pod.spec.containers.getD 0 emptyContainer) = true)
    (h0env : CheckEnvIsExist (pod.spec.containers.getD 0 emptyContainer) = true)
    (h1vm : CheckVolumeMountIsExist (pod.spec.containers.getD 1 emptyContainer) = false)
    (h1env : CheckEnvIsExist (pod.spec.containers.getD 1 emptyContainer) = false) :
    CheckVolumeMountIsExist
      ((toolsInject pod config).spec.containers.getD 1 emptyContainer) = true ∧
    CheckEnvIsExist
      ((toolsInject pod config).spec.containers.getD 1 emptyContainer) = true := by
  have hlt : 1 < pod.spec.containers.length := by omega
  have hmap : (toolsInject pod config).spec.containers =
      pod.spec.containers.map (toolsInjectContainer (toolsMountPath config)) := rfl
  have hget : (toolsInject pod config).spec.containers.getD 1 emptyContainer =
      toolsInjectContainer (toolsMountPath config) (pod.spec.containers.get ⟨1, hlt⟩) := by
    rw [hmap]
    rw [List.getD_eq_getElem?_getD, List.getElem?_map, List.getElem?_eq_getElem hlt]
    rfl
  rw [hget]
  exact ⟨toolsInjectContainer_vm_present _ _, toolsInjectContainer_env_present _ _⟩

def podWithInjectedFirst : Pod :=
  { name := "p"
    annots := none
    spec := { containers :=
      [ { name := "c0"
          env := [{ name := CliToolsPathEnvName, value := "/x" }]
          volumeMounts := [{ name := CliToolsVolumeName, mountPath := "/x" }] },
        { name := "c1" } ] } }

/-- Witness for C3 at a concrete two-container pod. -/
theorem tools_per_container_independence_witness :
    CheckVolumeMountIsExist
      ((toolsInject podWithInjectedFirst NewDefaultInjectConf).spec.containers.getD 1
        emptyContainer) = true ∧
    CheckEnvIsExist
      ((toolsInject podWithInjectedFirst NewDefaultInjectConf).spec.containers.getD 1
        emptyContainer) = true :=
  tools_per_container_independence podWithInjectedFirst NewDefaultInjectConf
    (by decide) (by decide) (by decide) (by decide) (by decide)

/-- C9: when ToolsInitcontainerInjector.Inject adds its init container (no
init container with the reserved name exists yet), that init container's
image is the value of the pod annotation dragonfly.io/cli-tools-image when
the key is present (any value), and config.CliToolsImage otherwise,
including when the pod's annotation map is nil. -/
theorem tools_initContainer_image (pod : Pod) (config : InjectConf)
    (h : CheckInitContainerIsExist pod = false) :
    ∃ ic, (toolsInject pod config).spec.initContainers =
        pod.spec.initContainers ++ [ic] ∧
      ic.name = CliToolsInitContainerName ∧
      (∀ m v, pod.annots = some m → lookupStr m CliToolsImageAnnotKey = some v →
        ic.image = v) ∧
      (∀ m, pod.annots = some m → lookupStr m CliToolsImageAnnotKey = none →
        ic.image = config.cliToolsImage) ∧
      (pod.annots = none → ic.image = config.cliToolsImage) := by
  refine ⟨toolsInitContainer pod config, ?_, rfl, ?_, ?_, ?_⟩
  · show (if CheckInitContainerIsExist pod = true then pod.spec.initContainers
        else pod.spec.initContainers ++ [toolsInitContainer pod config]) =
      pod.spec.initContainers ++ [toolsInitContainer pod config]
    rw [if_neg (by simp [h])]
  · intro m v hm hv
    show toolsResolveImage pod config = v
    simp [toolsResolveImage, hm, hv]
  · intro m hm hv
    show toolsResolveImage pod config = config.cliToolsImage
    simp [toolsResolveImage, hm, hv]
  · intro hm
    show toolsResolveImage pod config = config.cliToolsImage
    simp [toolsResolveImage, hm]

def podWithImageOverride : Pod :=
  { name := "p"
    annots := some [(CliToolsImageAnnotKey, "custom/image:tag")]
    spec := { containers := [{ name := "c" }] } }

/-- Witness for C9 at a concrete pod carrying the image-override annotation. -/
theorem tools_initContainer_image_witness :
    ∃ ic, (toolsInject podWithImageOverride NewDefaultInjectConf).spec.initContainers =
        podWithImageOverride.spec.initContainers ++ [ic] ∧
      ic.name = CliToolsInitContainerName ∧
      (∀ m v, podWithImageOverride.annots = some m →
        lookupStr m CliToolsImageAnnotKey = some v → ic.image = v) ∧
      (∀ m, podWithImageOverride.annots = some m →
        lookupStr m CliToolsImageAnnotKey = none →
        ic.image = NewDefaultInjectConf.cliToolsImage) ∧
      (podWithImageOverride.annots = none →
        ic.image = NewDefaultInjectConf.cliToolsImage) :=
  tools_initContainer_image podWithImageOverride NewDefaultInjectConf (by decide)

/-- C6: Default(ctx, obj) returns a non-nil error exactly when obj is not a
Pod; every Pod gets a nil error, and an ineligible Pod (neither namespace
label nor pod annotation matches) is returned completely unchanged. -/
theorem Default_spec (nsResult : Except String K8sNamespace) (config : InjectConf) :
    (∀ t, ∃ e, Default nsResult config (.other t) = Except.error e) ∧
    (∀ p, Default nsResult config (.pod p) =
      Except.ok (.pod (applyDefaults nsResult config p))) ∧
    (∀ p, injectRequired nsResult p = false →
      Default nsResult config (.pod p) = Except.ok (.pod p)) := by
  refine ⟨fun t => ⟨_, rfl⟩, fun p => rfl, fun p h => ?_⟩
  unfold Default applyDefaults
  dsimp only
  rw [h]
  simp

def emptyPod : Pod := {}

/-- Witness for C6: a pod with no annotations in a failing-namespace context
is returned unchanged with a nil error. -/
theorem Default_spec_witness :
    Default (Except.error "namespace not found") NewDefaultInjectConf (.pod emptyPod) =
      Except.ok (.pod emptyPod) :=
  (Default_spec (Except.error "namespace not found") NewDefaultInjectConf).2.2
    emptyPod (by decide)

/-- C8: the orchestrator applies all three injectors to every eligible pod
regardless of the Enable field of the config snapshot: Enable=false does not
suppress mutation, and the result equals the one produced under Enable=true
with the other fields equal. -/
theorem enable_flag_advisory (nsResult : Except String K8sNamespace)
    (config : InjectConf) (pod : Pod)
    (h : injectRequired nsResult pod = true) :
    applyDefaults nsResult { config with enable := false } pod =
      applyDefaults nsResult { config with enable := true } pod ∧
    applyDefaults nsResult { config with enable := false } pod =
      toolsInject
        (unixSocketInject (proxyEnvInject pod { config with enable := false })
          { config with enable := false })
        { config with enable := false } := by
  constructor
  · rfl
  · unfold applyDefaults
    rw [h]
    simp

def podAnnotatedInject : Pod :=
  { name := "p"
    annots := some [(PodInjectAnnotKey, PodInjectAnnotValue)]
    spec := { containers := [{ name := "c" }] } }

/-- Witness for C8 at a concrete eligible pod. -/
theorem enable_flag_advisory_witness :
    applyDefaults (Except.error "e") { NewDefaultInjectConf with enable := false }
        podAnnotatedInject =
      applyDefaults (Except.error "e") { NewDefaultInjectConf with enable := true }
        podAnnotatedInject ∧
    applyDefaults (Except.error "e") { NewDefaultInjectConf with enable := false }
        podAnnotatedInject =
      toolsInject
        (unixSocketInject
          (proxyEnvInject podAnnotatedInject { NewDefaultInjectConf with enable := false })
          { NewDefaultInjectConf with enable := false })
        { NewDefaultInjectConf with enable := false } :=
  enable_flag_advisory (Except.error "e") NewDefaultInjectConf podAnnotatedInject (by decide)

/-- C4: when the config file does not exist, is unreadable, or fails to
parse, LoadInjectConf returns exactly the compiled-in default configuration
and never surfaces an error (its return type carries no error at all). -/
theorem LoadInjectConf_fallback (readFile : String → Except String String)
    (parse : String → Except String InjectConfDoc) (path : String)
    (h : (∃ e, readFile path = Except.error e) ∨
      (∃ c e, readFile path = Except.ok c ∧ parse c = Except.error e)) :
    LoadInjectConf readFile parse path =
      { enable := true, proxyPort := 4001,
        cliToolsImage := "dragonflyoss/cli-tools:latest",
        cliToolsDirPath := "/dragonfly-tools" } := by
  unfold LoadInjectConf LoadInjectConfFromFile
  rcases h with ⟨e, he⟩ | ⟨c, e, hc, hp⟩
  · rw [he]
    rfl
  · rw [hc]
    dsimp only
    rw [hp]
    rfl

/-- Witness for C4 on a filesystem where the file is missing. -/
theorem LoadInjectConf_fallback_witness :
    LoadInjectConf (fun _ => Except.error "open /etc/dragonfly-p2p-webhook/config.yaml: no such file or directory")
      (fun _ => Except.ok {}) "/etc/dragonfly-p2p-webhook/config.yaml" =
      { enable := true, proxyPort := 4001,
        cliToolsImage := "dragonflyoss/cli-tools:latest",
        cliToolsDirPath := "/dragonfly-tools" } :=
  LoadInjectConf_fallback _ _ _ (Or.inl ⟨_, rfl⟩)

/-- C7: when the config file reads and parses successfully but omits some
recognized keys, every omitted key takes its zero value (false, 0, or the
empty string), not the compiled-in default for that key. -/
theorem LoadInjectConf_omitted_keys (readFile : String → Except String String)
    (parse : String → Except String InjectConfDoc) (path : String)
    (c : String) (doc : InjectConfDoc)
    (hr : readFile path = Except.ok c) (hp : parse c = Except.ok doc) :
    (doc.enable = none → (LoadInjectConf readFile parse path).enable = false) ∧
    (doc.proxy_port = none → (LoadInjectConf readFile parse path).proxyPort = 0) ∧
    (doc.cli_tools_image = none →
      (LoadInjectConf readFile parse path).cliToolsImage = "") ∧
    (doc.cli_tools_dir_path = none →
      (LoadInjectConf readFile parse path).cliToolsDirPath = "") := by
  have hload : LoadInjectConf readFile parse path =
      unmarshalInto doc
        { enable := false, proxyPort := 0, cliToolsImage := "", cliToolsDirPath := "" } := by
    unfold LoadInjectConf LoadInjectConfFromFile
    rw [hr]
    dsimp only
    rw [hp]
  rw [hload]
  refine ⟨fun h => ?_, fun h => ?_, fun h => ?_, fun h => ?_⟩ <;> simp [unmarshalInto, h]

/-- Witness for C7 on a parse that sets no keys at all. -/
theorem LoadInjectConf_omitted_keys_witness :
    (({} : InjectConfDoc).enable = none →
      (LoadInjectConf (fun _ => Except.ok "") (fun _ => Except.ok {}) "/p").enable = false) ∧
    (({} : InjectConfDoc).proxy_port = none →
      (LoadInjectConf (fun _ => Except.ok "") (fun _ => Except.ok {}) "/p").proxyPort = 0) ∧
    (({} : InjectConfDoc).cli_tools_image = none →
      (LoadInjectConf (fun _ => Except.ok "") (fun _ => Except.ok {}) "/p").cliToolsImage = "") ∧
    (({} : InjectConfDoc).cli_tools_dir_path = none →
      (LoadInjectConf (fun _ => Except.ok "") (fun _ => Except.ok {}) "/p").cliToolsDirPath = "") :=
  LoadInjectConf_omitted_keys (fun _ => Except.ok "") (fun _ => Except.ok {}) "/p" "" {} rfl rfl

/-- C10: after a reload tick the ConfigManager stores exactly
LoadInjectConf(configPath) evaluated against the filesystem at that tick,
regardless of what was stored before; in particular when the file has become
unreadable, GetConfig afterwards returns the compiled-in defaults, not the
previously loaded values. -/
theorem reload_replaces (readFile : String → Except String String)
    (parse : String → Except String InjectConfDoc) (cm : ConfigManager) :
    (ConfigManager.reload readFile parse cm).GetConfig =
      LoadInjectConf readFile parse cm.configPath ∧
    ((∃ e, readFile cm.configPath = Except.error e) →
      (ConfigManager.reload readFile parse cm).GetConfig = NewDefaultInjectConf) := by
  constructor
  · rfl
  · rintro ⟨e, he⟩
    show LoadInjectConf readFile parse cm.configPath = NewDefaultInjectConf
    unfold LoadInjectConf LoadInjectConfFromFile
    rw [he]

/-- Witness for C10: a manager that had loaded a non-default config reloads
against a now-unreadable file and thereafter serves the defaults. -/
theorem reload_replaces_witness :
    (ConfigManager.reload (fun _ => Except.error "permission denied")
        (fun _ => Except.ok {})
        { config := { enable := false, proxyPort := 9, cliToolsImage := "x",
                      cliToolsDirPath := "/y" },
          configPath := "/etc/dragonfly-p2p-webhook/config.yaml" }).GetConfig =
      NewDefaultInjectConf :=
  (reload_replaces (fun _ => Except.error "permission denied") (fun _ => Except.ok {})
    { config := { enable := false, proxyPort := 9, cliToolsImage := "x",
                  cliToolsDirPath := "/y" },
      configPath := "/etc/dragonfly-p2p-webhook/config.yaml" }).2 ⟨_, rfl⟩

def nsLabeledEnabled : K8sNamespace :=
  { labels := [("dragonflyoss-injection", "enabled")] }

def podOneContainer : Pod :=
  { name := "test-pod"
    namespaceName := "test-namespace"
    annots := none
    spec := { containers := [{ name := "app" }] } }

/-- C5: a pod with one container, no annotations, in a namespace labeled
dragonflyoss-injection=enabled, mutated under the default config, ends with
exactly the 4 new env vars (NODE_NAME downward-API field reference to
spec.nodeName, DRAGONFLY_PROXY_PORT "4001", DRAGONFLY_INJECT_PROXY
"http://$(NODE_NAME):$(DRAGONFLY_PROXY_PORT)", DRAGONFLY_TOOLS_PATH
"/dragonfly-tools-mount"), exactly 2 volumes (fixed-name socket volume and
fixed-name tools empty-dir volume), and exactly 1 init container with the
reserved name and image dragonflyoss/cli-tools:latest. -/
theorem scenario1_mutation :
    (applyDefaults (Except.ok nsLabeledEnabled) NewDefaultInjectConf
        podOneContainer).spec.containers.map (fun c => c.env) =
      [[ { name := "NODE_NAME"
           valueFrom := some { fieldRef := some { fieldPath := "spec.nodeName" } } },
         { name := "DRAGONFLY_PROXY_PORT", value := "4001" },
         { name := "DRAGONFLY_INJECT_PROXY"
           value := "http://$(NODE_NAME):$(DRAGONFLY_PROXY_PORT)" },
         { name := "DRAGONFLY_TOOLS_PATH", value := "/dragonfly-tools-mount" } ]] ∧
    (applyDefaults (Except.ok nsLabeledEnabled) NewDefaultInjectConf
        podOneContainer).spec.volumes =
      [ { name := "dfdaemon-unix-sock"
          volumeSource := .hostPath { path := "/var/run/dragonfly/dfdaemon.sock"
                                      typ := some .socket } },
        { name := "d7y-cli-tools-volume", volumeSource := .emptyDir } ] ∧
    (applyDefaults (Except.ok nsLabeledEnabled) NewDefaultInjectConf
        podOneContainer).spec.initContainers.map (fun ic => (ic.name, ic.image)) =
      [("d7y-cli-tools", "dragonflyoss/cli-tools:latest")] :=
  ⟨rfl, rfl, rfl⟩

end DragonflyWebhook
